import Mathlib

/-!
Shallow embedding of `spanner/src/transaction_rw.rs` (google-cloud-rust):
the client-side protocol core of a locking read-write transaction.

RPC transport is modelled by passing each operation the raw result the
transport returned for its single RPC; every operation returns the list of
wire requests it issued, so theorems can speak about which RPCs were sent.
Types that the source only consumes (generated protobuf structs, the session
pool's `ManagedSession`, `Transaction` base struct from `transaction.rs`)
are reproduced with the fields this file reads or writes.
-/

/-- Source `tonic::Code`: the gRPC status codes. -/
inductive Code where
  | ok
  | cancelled
  | unknown
  | invalidArgument
  | deadlineExceeded
  | notFound
  | alreadyExists
  | permissionDenied
  | resourceExhausted
  | failedPrecondition
  | aborted
  | outOfRange
  | unimplemented
  | internal
  | unavailable
  | dataLoss
  | unauthenticated
  deriving DecidableEq, Repr

/-- Source `tonic::Status`: a status code plus message. -/
structure Status where
  code : Code
  message : String
  deriving DecidableEq, Repr

/-- Protobuf `Mutation` (opaque to this core: buffered and forwarded verbatim). -/
structure Mutation where
  mid : Nat
  deriving DecidableEq, Repr

/-- Protobuf `Session` (the server-side session resource; the core reads `name`). -/
structure Session where
  name : String
  deriving DecidableEq, Repr

/-- Modelled from the spec: `session_pool.rs` is not under `src/`. The Session
Handle wraps a live RPC client plus a validity flag; the handle can mark
itself invalid when an RPC fails. `session` is the leased server-side session
resource, identifying the handle. -/
structure ManagedSession where
  session : Session
  valid : Bool
  deriving DecidableEq, Repr

/-- Modelled from the spec: `reportOutcome` / `invalidate_if_needed` lives in
`session_pool.rs`, not under `src/`. Per §6 of the spec it "lets the handle
mark itself invalid on certain failures" and the RPC result is then
"propagated to the caller unchanged". Which failures invalidate is the
handle's own policy, abstracted as the predicate `should_invalidate`. -/
def invalidate_if_needed (should_invalidate : Status → Bool) (s : ManagedSession)
    (result : Except Status α) : ManagedSession × Except Status α :=
  match result with
  | .ok v => (s, .ok v)
  | .error st =>
      (if should_invalidate st then { s with valid := false } else s, .error st)

/-- Source `prost_types::Timestamp`. -/
structure Timestamp where
  seconds : Int
  nanos : Int
  deriving DecidableEq, Repr

/-- Source `prost_types::Struct` holding encoded statement parameters. -/
structure Struct where
  fields : List (String × String)
  deriving DecidableEq, Repr

/-- Modelled from the spec: `statement.rs` is not under `src/`. A `Statement`
carries the SQL text, encoded parameters and parameter types; encoding is out
of scope, so parameters are opaque key/value lists. -/
structure Statement where
  sql : String
  params : List (String × String)
  param_types : List (String × String)
  deriving DecidableEq, Repr

/-- Protobuf `RequestOptions` (the core populates only the priority). -/
structure RequestOptions where
  priority : Int
  deriving DecidableEq, Repr

/-- Modelled from the spec: `BackoffRetrySettings` comes from the gax crate,
not under `src/`; the core threads it through to the transport untouched. -/
structure BackoffRetrySettings where
  retries : Nat
  deriving DecidableEq, Repr

/-- Modelled from the spec: `CallOptions` lives in `transaction.rs`, not under
`src/`: per-call `{priority, retrySettings}` forwarded verbatim. -/
structure CallOptions where
  priority : Option Int
  call_setting : Option BackoffRetrySettings
  deriving DecidableEq, Repr

/-- Source `CallOptions::default()`. -/
def CallOptions.default : CallOptions :=
  { priority := none, call_setting := none }

/-- Modelled from the spec: `QueryOptions` lives in `transaction.rs`, not under
`src/`: query mode, optimizer options and the per-call options. -/
structure QueryOptions where
  mode : Int
  optimizer_options : Option String
  call_options : CallOptions
  deriving DecidableEq, Repr

/-- Source `QueryOptions::default()`. -/
def QueryOptions.default : QueryOptions :=
  { mode := 0, optimizer_options := none, call_options := CallOptions.default }

/-- Source `CommitOptions` from `transaction_rw.rs`. -/
structure CommitOptions where
  return_commit_stats : Bool
  call_options : CallOptions
  deriving DecidableEq, Repr

/-- Source `CommitOptions::default()` from `transaction_rw.rs`. -/
def CommitOptions.default : CommitOptions :=
  { return_commit_stats := false, call_options := CallOptions.default }

/-- Source `transaction_options::Mode`. -/
inductive Mode where
  | readWrite
  | partitionedDml
  deriving DecidableEq, Repr

/-- Protobuf `TransactionOptions`. -/
structure TransactionOptions where
  mode : Option Mode
  deriving DecidableEq, Repr

/-- Source `transaction_selector::Selector` (the core only builds the `Id` arm). -/
inductive Selector where
  | id (b : List Nat)
  deriving DecidableEq, Repr

/-- Protobuf `TransactionSelector`. -/
structure TransactionSelector where
  selector : Option Selector
  deriving DecidableEq, Repr

/-- Source `result_set_stats::RowCount`. -/
inductive RowCount where
  | RowCountExact (v : Int)
  | RowCountLowerBound (v : Int)
  deriving DecidableEq, Repr

/-- Protobuf `ResultSetStats` (the core reads only `row_count`). -/
structure ResultSetStats where
  row_count : Option RowCount
  deriving DecidableEq, Repr

/-- Protobuf `ResultSet` (the core reads only `stats`). -/
structure ResultSet where
  stats : Option ResultSetStats
  deriving DecidableEq, Repr

/-- Protobuf `ExecuteBatchDmlResponse` (the core reads only `result_sets`). -/
structure ExecuteBatchDmlResponse where
  result_sets : List ResultSet
  deriving DecidableEq, Repr

/-- Protobuf `Transaction` message returned by `begin_transaction`
(named apart from the client-side `Transaction` base struct below). -/
structure TransactionProto where
  id : List Nat
  deriving DecidableEq, Repr

/-- Protobuf `CommitResponse`. -/
structure CommitResponse where
  commit_timestamp : Option Timestamp
  commit_stats : Option Int
  deriving DecidableEq, Repr

/-- Protobuf `BeginTransactionRequest` as populated by `begin_internal`. -/
structure BeginTransactionRequest where
  session : String
  options : Option TransactionOptions
  request_options : Option RequestOptions
  deriving DecidableEq, Repr

/-- Protobuf `ExecuteSqlRequest` as populated by `update`. -/
structure ExecuteSqlRequest where
  session : String
  transaction : Option TransactionSelector
  sql : String
  params : Option Struct
  param_types : List (String × String)
  resume_token : List Nat
  query_mode : Int
  partition_token : List Nat
  seqno : Int
  query_options : Option String
  request_options : Option RequestOptions
  deriving DecidableEq, Repr

/-- Source `execute_batch_dml_request::Statement`. -/
structure BatchStatement where
  sql : String
  params : Option Struct
  param_types : List (String × String)
  deriving DecidableEq, Repr

/-- Protobuf `ExecuteBatchDmlRequest` as populated by `batch_update`:
an ordered batch of statements sharing the single `seqno` field. -/
structure ExecuteBatchDmlRequest where
  session : String
  transaction : Option TransactionSelector
  seqno : Int
  request_options : Option RequestOptions
  statements : List BatchStatement
  deriving DecidableEq, Repr

/-- Source `commit_request::Transaction` (the core builds only `TransactionId`). -/
inductive CommitTransaction where
  | TransactionId (id : List Nat)
  | SingleUseTransaction (opts : TransactionOptions)
  deriving DecidableEq, Repr

/-- Protobuf `CommitRequest` as populated by the free `commit` function. -/
structure CommitRequest where
  session : String
  mutations : List Mutation
  transaction : Option CommitTransaction
  request_options : Option RequestOptions
  return_commit_stats : Bool
  deriving DecidableEq, Repr

/-- Protobuf `RollbackRequest` as populated by `rollback`. -/
structure RollbackRequest where
  transaction_id : List Nat
  session : String
  deriving DecidableEq, Repr

/-- A wire request issued by the transaction core, tagged by RPC method. -/
inductive Request where
  | begin_transaction (r : BeginTransactionRequest)
  | execute_sql (r : ExecuteSqlRequest)
  | execute_batch_dml (r : ExecuteBatchDmlRequest)
  | commit (r : CommitRequest)
  | rollback (r : RollbackRequest)
  deriving DecidableEq, Repr

/-- Modelled from the spec: `Transaction` (the base struct) lives in
`transaction.rs`, not under `src/`. Per §2/§3 it holds the owned session
handle, the sequence counter (an `AtomicI64` in the source; the core is
single-owner per §5, so plain state suffices) and the transaction selector. -/
structure Transaction where
  session : ManagedSession
  sequence_number : Int
  transaction_selector : TransactionSelector
  deriving DecidableEq, Repr

/-- Modelled from the spec: `Transaction::create_request_options` lives in
`transaction.rs`, not under `src/`; per §6 the caller-supplied request
priority is forwarded verbatim into each request's options. -/
def Transaction.create_request_options (priority : Option Int) : Option RequestOptions :=
  priority.map (fun p => { priority := p })

/-- Modelled from the spec: `Transaction::get_session_name` lives in
`transaction.rs`, not under `src/`; it reads the leased session's name. -/
def Transaction.get_session_name (t : Transaction) : String :=
  t.session.session.name

/-- Source `ReadWriteTransaction` from `transaction_rw.rs`. -/
structure ReadWriteTransaction where
  base_tx : Transaction
  tx_id : List Nat
  wb : List Mutation
  deriving DecidableEq, Repr

/-- Via `Deref`: the session name seen through the base transaction. -/
def ReadWriteTransaction.get_session_name (tx : ReadWriteTransaction) : String :=
  tx.base_tx.get_session_name

/-- Source `BeginError` from `transaction_rw.rs`: a failed begin carries both the
failure status and the still-leased session handle. -/
structure BeginError where
  status : Status
  session : ManagedSession
  deriving DecidableEq, Repr

/-- Two's-complement wrap-around of an unbounded integer into the `i64`
range `[-2^63, 2^63)`: the source's sequence counter is an `AtomicI64`, and
`fetch_add(1, Relaxed)` wraps around on overflow. -/
def wrap64 (n : Int) : Int := (n + 2 ^ 63) % 2 ^ 64 - 2 ^ 63

/-- Source `extract_row_count` from `transaction_rw.rs`. -/
def extract_row_count (rs : Option ResultSetStats) : Int :=
  match rs with
  | some o =>
      match o.row_count with
      | some o =>
          match o with
          | RowCount.RowCountExact v => v
          | RowCount.RowCountLowerBound v => v
      | none => 0
  | none => 0

/-! ## Operations

Each operation mirrors its source method. The transport's raw result for the
operation's single RPC is an input; the operation returns the updated
transaction (or session), the list of wire requests it issued, and the value
the source method returns. `should_invalidate` abstracts the session
handle's invalidation policy (see `invalidate_if_needed`). -/

/-- Source `ReadWriteTransaction::begin_internal` from `transaction_rw.rs`. -/
def ReadWriteTransaction.begin_internal (should_invalidate : Status → Bool)
    (session : ManagedSession) (mode : Mode) (options : CallOptions)
    (rpc_result : Except Status TransactionProto) :
    List Request × Except BeginError ReadWriteTransaction :=
  let request : BeginTransactionRequest :=
    { session := session.session.name
      options := some { mode := some mode }
      request_options := Transaction.create_request_options options.priority }
  let inv := invalidate_if_needed should_invalidate session rpc_result
  match inv.2 with
  | .error err =>
      ([Request.begin_transaction request], .error { status := err, session := inv.1 })
  | .ok tx =>
      ([Request.begin_transaction request],
       .ok { base_tx :=
               { session := inv.1
                 sequence_number := 0
                 transaction_selector := { selector := some (Selector.id tx.id) } }
             tx_id := tx.id
             wb := [] })

/-- Source `ReadWriteTransaction::begin` from `transaction_rw.rs`. -/
def ReadWriteTransaction.begin (should_invalidate : Status → Bool)
    (session : ManagedSession) (options : CallOptions)
    (rpc_result : Except Status TransactionProto) :
    List Request × Except BeginError ReadWriteTransaction :=
  ReadWriteTransaction.begin_internal should_invalidate session Mode.readWrite options rpc_result

/-- Source `ReadWriteTransaction::begin_partitioned_dml` from `transaction_rw.rs`. -/
def ReadWriteTransaction.begin_partitioned_dml (should_invalidate : Status → Bool)
    (session : ManagedSession) (options : CallOptions)
    (rpc_result : Except Status TransactionProto) :
    List Request × Except BeginError ReadWriteTransaction :=
  ReadWriteTransaction.begin_internal should_invalidate session Mode.partitionedDml options rpc_result

/-- Source `ReadWriteTransaction::buffer_write` from `transaction_rw.rs`:
`self.wb.extend_from_slice(&ms)`. -/
def ReadWriteTransaction.buffer_write (tx : ReadWriteTransaction) (ms : List Mutation) :
    ReadWriteTransaction :=
  { tx with wb := tx.wb ++ ms }

/-- Source `ReadWriteTransaction::update` from `transaction_rw.rs`. The `seqno`
stamped on the request is the counter's current value; `fetch_add(1)` leaves
the counter incremented before the RPC is sent. -/
def ReadWriteTransaction.update (should_invalidate : Status → Bool)
    (tx : ReadWriteTransaction) (stmt : Statement) (options : Option QueryOptions)
    (rpc_result : Except Status ResultSet) :
    ReadWriteTransaction × List Request × Except Status Int :=
  let opt := match options with
    | some o => o
    | none => QueryOptions.default
  let request : ExecuteSqlRequest :=
    { session := tx.get_session_name
      transaction := some tx.base_tx.transaction_selector
      sql := stmt.sql
      params := some { fields := stmt.params }
      param_types := stmt.param_types
      resume_token := []
      query_mode := opt.mode
      partition_token := []
      seqno := tx.base_tx.sequence_number
      query_options := opt.optimizer_options
      request_options := Transaction.create_request_options opt.call_options.priority }
  let bumped : ReadWriteTransaction :=
    { tx with base_tx :=
        { tx.base_tx with sequence_number := wrap64 (tx.base_tx.sequence_number + 1) } }
  let inv := invalidate_if_needed should_invalidate bumped.base_tx.session rpc_result
  let tx2 : ReadWriteTransaction :=
    { bumped with base_tx := { bumped.base_tx with session := inv.1 } }
  match inv.2 with
  | .ok response => (tx2, [Request.execute_sql request], .ok (extract_row_count response.stats))
  | .error e => (tx2, [Request.execute_sql request], .error e)

/-- Source `ReadWriteTransaction::batch_update` from `transaction_rw.rs`: one
request, one `seqno`, an ordered list of statements. -/
def ReadWriteTransaction.batch_update (should_invalidate : Status → Bool)
    (tx : ReadWriteTransaction) (stmt : List Statement) (options : Option QueryOptions)
    (rpc_result : Except Status ExecuteBatchDmlResponse) :
    ReadWriteTransaction × List Request × Except Status (List Int) :=
  let opt := match options with
    | some o => o
    | none => QueryOptions.default
  let request : ExecuteBatchDmlRequest :=
    { session := tx.get_session_name
      transaction := some tx.base_tx.transaction_selector
      seqno := tx.base_tx.sequence_number
      request_options := Transaction.create_request_options opt.call_options.priority
      statements := stmt.map (fun x =>
        { sql := x.sql
          params := some { fields := x.params }
          param_types := x.param_types }) }
  let bumped : ReadWriteTransaction :=
    { tx with base_tx :=
        { tx.base_tx with sequence_number := wrap64 (tx.base_tx.sequence_number + 1) } }
  let inv := invalidate_if_needed should_invalidate bumped.base_tx.session rpc_result
  let tx2 : ReadWriteTransaction :=
    { bumped with base_tx := { bumped.base_tx with session := inv.1 } }
  match inv.2 with
  | .ok response =>
      (tx2, [Request.execute_batch_dml request],
       .ok (response.result_sets.map (fun x => extract_row_count x.stats)))
  | .error e => (tx2, [Request.execute_batch_dml request], .error e)

/-- The free `commit` function from `transaction_rw.rs`: builds the
`CommitRequest` carrying the session name, the mutations, the transaction
selector and the commit-stats flag, issues the RPC and routes the result
through the session handle. -/
def transaction_rw.commit (should_invalidate : Status → Bool)
    (session : ManagedSession) (ms : List Mutation) (tx : CommitTransaction)
    (commit_options : CommitOptions)
    (rpc_result : Except Status CommitResponse) :
    ManagedSession × List Request × Except Status CommitResponse :=
  let request : CommitRequest :=
    { session := session.session.name
      mutations := ms
      transaction := some tx
      request_options := Transaction.create_request_options commit_options.call_options.priority
      return_commit_stats := commit_options.return_commit_stats }
  let inv := invalidate_if_needed should_invalidate session rpc_result
  (inv.1, [Request.commit request], inv.2)

/-- Source `ReadWriteTransaction::commit` from `transaction_rw.rs`: clones the
transaction id and the write buffer and delegates to the free `commit`. -/
def ReadWriteTransaction.commit (should_invalidate : Status → Bool)
    (tx : ReadWriteTransaction) (options : CommitOptions)
    (rpc_result : Except Status CommitResponse) :
    ReadWriteTransaction × List Request × Except Status CommitResponse :=
  let tx_id := tx.tx_id
  let mutations := tx.wb
  let r := transaction_rw.commit should_invalidate tx.base_tx.session mutations
    (CommitTransaction.TransactionId tx_id) options rpc_result
  ({ tx with base_tx := { tx.base_tx with session := r.1 } }, r.2.1, r.2.2)

/-- Source `ReadWriteTransaction::rollback` from `transaction_rw.rs`. -/
def ReadWriteTransaction.rollback (should_invalidate : Status → Bool)
    (tx : ReadWriteTransaction) (setting : Option BackoffRetrySettings)
    (rpc_result : Except Status Unit) :
    ReadWriteTransaction × List Request × Except Status Unit :=
  let request : RollbackRequest :=
    { transaction_id := tx.tx_id, session := tx.get_session_name }
  let inv := invalidate_if_needed should_invalidate tx.base_tx.session rpc_result
  ({ tx with base_tx := { tx.base_tx with session := inv.1 } },
   [Request.rollback request], inv.2)

/-- Source `ReadWriteTransaction::finish` from `transaction_rw.rs`: the finalization
policy. `E` is the caller's error type; `as_tonic_status` and `e_from` stand
for the `AsTonicStatus` and `From<tonic::Status>` bounds. `commit_result`
(resp. `rollback_result`) is the transport's raw answer to the commit
(resp. rollback) RPC, consulted only if that RPC is actually issued. -/
def ReadWriteTransaction.finish {T E : Type} (should_invalidate : Status → Bool)
    (as_tonic_status : E → Option Status) (e_from : Status → E)
    (tx : ReadWriteTransaction) (result : Except E T) (options : Option CommitOptions)
    (commit_result : Except Status CommitResponse) (rollback_result : Except Status Unit) :
    ReadWriteTransaction × List Request × Except E (Option Timestamp × T) :=
  let opt := match options with
    | some o => o
    | none => CommitOptions.default
  match result with
  | .ok s =>
      let c := tx.commit should_invalidate opt commit_result
      match c.2.2 with
      | .ok cr => (c.1, c.2.1, .ok (cr.commit_timestamp, s))
      | .error e => (c.1, c.2.1, .error (e_from e))
  | .error err =>
      match as_tonic_status err with
      | none =>
          let r := tx.rollback should_invalidate opt.call_options.call_setting rollback_result
          (r.1, r.2.1, .error err)
      | some status =>
          match status.code with
          | Code.aborted => (tx, [], .error err)
          | Code.notFound => (tx, [], .error err)
          | _ =>
              let r := tx.rollback should_invalidate opt.call_options.call_setting rollback_result
              (r.1, r.2.1, .error err)

/-! ## Call traces

A `Call` is one caller-side operation on a live transaction, packaged with
the transport's raw answer for the RPC it issues (if any); `runCalls` folds a
list of calls over a transaction, concatenating the wire requests issued. -/

/-- One caller-side operation on a live transaction. -/
inductive Call where
  | update (stmt : Statement) (options : Option QueryOptions) (rpc_result : Except Status ResultSet)
  | batchUpdate (stmts : List Statement) (options : Option QueryOptions)
      (rpc_result : Except Status ExecuteBatchDmlResponse)
  | bufferWrite (ms : List Mutation)

/-- Whether a call is a mutating statement execution (consumes a `seqno`). -/
def Call.isMutating : Call → Bool
  | .update _ _ _ => true
  | .batchUpdate _ _ _ => true
  | .bufferWrite _ => false

/-- Execute one call against the transaction, returning the updated
transaction and the wire requests it issued. -/
def runCall (should_invalidate : Status → Bool) (tx : ReadWriteTransaction) :
    Call → ReadWriteTransaction × List Request
  | .update stmt opt r =>
      let s := tx.update should_invalidate stmt opt r
      (s.1, s.2.1)
  | .batchUpdate stmts opt r =>
      let s := tx.batch_update should_invalidate stmts opt r
      (s.1, s.2.1)
  | .bufferWrite ms => (tx.buffer_write ms, [])

/-- Execute a list of calls in order, concatenating issued wire requests. -/
def runCalls (should_invalidate : Status → Bool) (tx : ReadWriteTransaction) :
    List Call → ReadWriteTransaction × List Request
  | [] => (tx, [])
  | c :: cs =>
      let s := runCall should_invalidate tx c
      let rest := runCalls should_invalidate s.1 cs
      (rest.1, s.2 ++ rest.2)

/-- The `seqno` fields of the mutating requests of a wire trace, in order.
Each `execute_batch_dml` request carries exactly one `seqno`. -/
def mutatingSeqnos : List Request → List Int
  | [] => []
  | Request.execute_sql r :: rest => r.seqno :: mutatingSeqnos rest
  | Request.execute_batch_dml r :: rest => r.seqno :: mutatingSeqnos rest
  | _ :: rest => mutatingSeqnos rest

/-! ## Helper lemmas -/

/-- A buffering-only call list issues no requests and appends the buffered
mutations, in call order, to the write buffer. -/
theorem runCalls_bufferWrites (sI : Status → Bool) (wss : List (List Mutation)) :
    ∀ tx : ReadWriteTransaction,
      runCalls sI tx (wss.map Call.bufferWrite) =
        ({ tx with wb := tx.wb ++ wss.flatten }, []) := by
  induction wss with
  | nil => intro tx; simp [runCalls]
  | cons ws wss ih =>
      intro tx
      simp [runCalls, runCall, ReadWriteTransaction.buffer_write, ih, List.append_assoc]

/-- Source `wrap64` characterisation: an integer already in the `i64` range
is left unchanged. -/
theorem wrap64_eq_self (n : Int) (h1 : -2 ^ 63 ≤ n) (h2 : n < 2 ^ 63) :
    wrap64 n = n := by
  unfold wrap64
  omega

/-- The wrapped value always lies at or above `i64::MIN`. -/
theorem wrap64_lower (n : Int) : -2 ^ 63 ≤ wrap64 n := by
  unfold wrap64
  omega

/-- The wrapped value always lies at or below `i64::MAX`. -/
theorem wrap64_upper (n : Int) : wrap64 n < 2 ^ 63 := by
  unfold wrap64
  omega

/-- Wrapping distributes over addition on the left operand. -/
theorem wrap64_wrap64_add (x y : Int) : wrap64 (wrap64 x + y) = wrap64 (x + y) := by
  unfold wrap64
  omega

/-- The mutating requests of a call trace carry the sequence numbers
`wrap64 (c + 0), wrap64 (c + 1), ...` where `c` is the transaction's current
(in-range) counter, one per mutating call, regardless of the transport
results (which may all be failures): the counter advances by a wrapping
64-bit increment on every mutating call. -/
theorem runCalls_mutatingSeqnos (sI : Status → Bool) (calls : List Call) :
    ∀ tx : ReadWriteTransaction,
      -2 ^ 63 ≤ tx.base_tx.sequence_number → tx.base_tx.sequence_number < 2 ^ 63 →
      mutatingSeqnos (runCalls sI tx calls).2 =
        (List.range (calls.countP Call.isMutating)).map
          (fun (i : Nat) => wrap64 (tx.base_tx.sequence_number + (i : Int))) := by
  induction calls with
  | nil => intro tx _ _; simp [runCalls, mutatingSeqnos]
  | cons c cs ih =>
      intro tx hlo hhi
      have step :
          ∀ tx' : ReadWriteTransaction,
            tx'.base_tx.sequence_number = wrap64 (tx.base_tx.sequence_number + 1) →
            tx.base_tx.sequence_number :: mutatingSeqnos (runCalls sI tx' cs).2 =
              (List.range (cs.countP Call.isMutating + 1)).map
                (fun (i : Nat) => wrap64 (tx.base_tx.sequence_number + (i : Int))) := by
        intro tx' h
        rw [ih tx' (h ▸ wrap64_lower _) (h ▸ wrap64_upper _), h,
          List.range_succ_eq_map, List.map_cons, List.map_map]
        refine congrArg₂ _ (by simp [wrap64_eq_self _ hlo hhi]) (List.map_congr_left ?_)
        intro i _
        simp only [Function.comp]
        rw [wrap64_wrap64_add]
        congr 1
        push_cast
        ring
      cases c with
      | update stmt opt r =>
          cases r with
          | ok v =>
              simp only [runCalls, runCall, ReadWriteTransaction.update,
                invalidate_if_needed, List.countP_cons, Call.isMutating,
                mutatingSeqnos, List.cons_append, List.nil_append,
                if_true, if_pos]
              exact step _ rfl
          | error e =>
              simp only [runCalls, runCall, ReadWriteTransaction.update,
                invalidate_if_needed, List.countP_cons, Call.isMutating,
                mutatingSeqnos, List.cons_append, List.nil_append]
              exact step _ rfl
      | batchUpdate stmts opt r =>
          cases r with
          | ok v =>
              simp only [runCalls, runCall, ReadWriteTransaction.batch_update,
                invalidate_if_needed, List.countP_cons, Call.isMutating,
                mutatingSeqnos, List.cons_append, List.nil_append]
              exact step _ rfl
          | error e =>
              simp only [runCalls, runCall, ReadWriteTransaction.batch_update,
                invalidate_if_needed, List.countP_cons, Call.isMutating,
                mutatingSeqnos, List.cons_append, List.nil_append]
              exact step _ rfl
      | bufferWrite ms =>
          simp only [runCalls, runCall, ReadWriteTransaction.buffer_write,
            List.nil_append, List.countP_cons, Call.isMutating]
          rw [ih { base_tx := tx.base_tx, tx_id := tx.tx_id, wb := tx.wb ++ ms } hlo hhi]
          simp

/-! ## Concrete example values (used by witnesses) -/

/-- A leased session handle named `s1`. -/
def exSession : ManagedSession := { session := { name := "s1" }, valid := true }

/-- A live transaction on `exSession` with id `[1]`, counter `2`, one
buffered mutation. -/
def exTx : ReadWriteTransaction :=
  { base_tx :=
      { session := exSession
        sequence_number := 2
        transaction_selector := { selector := some (Selector.id [1]) } }
    tx_id := [1]
    wb := [{ mid := 7 }] }

/-- An `ABORTED` server status. -/
def exAborted : Status := { code := Code.aborted, message := "tx aborted" }

/-- An `INTERNAL` server status (neither `ABORTED` nor `NOT_FOUND`). -/
def exInternal : Status := { code := Code.internal, message := "boom" }

/-! ## Claim theorems -/

/-- C1: for every business-logic failure whose error reports a server status
of `ABORTED`, and for every failure reporting `NOT_FOUND`, `finish` returns
that same failure to the caller and does not issue a rollback RPC (and does
not issue a commit RPC): the wire trace is empty and the transaction state is
untouched. -/
theorem finish_aborted_or_not_found_returns_without_rollback {T E : Type}
    (sI : Status → Bool) (ats : E → Option Status) (ef : Status → E)
    (tx : ReadWriteTransaction) (err : E) (options : Option CommitOptions)
    (cr : Except Status CommitResponse) (rr : Except Status Unit) (st : Status)
    (hs : ats err = some st)
    (hc : st.code = Code.aborted ∨ st.code = Code.notFound) :
    tx.finish sI ats ef (Except.error err : Except E T) options cr rr =
      (tx, [], Except.error err) := by
  simp only [ReadWriteTransaction.finish, hs]
  rcases hc with h | h <;> rw [h]

/-- Witness for C1: with error type `Option Status` (status classification is
the identity) and an error reporting `ABORTED`, `finish` returns the failure
with an empty wire trace. -/
theorem finish_aborted_or_not_found_returns_without_rollback_witness :
    ((fun (e : Option Status) => e) (some exAborted) = some exAborted ∧
      (exAborted.code = Code.aborted ∨ exAborted.code = Code.notFound)) ∧
    ReadWriteTransaction.finish (T := Nat) (fun _ => true) (fun (e : Option Status) => e)
        some exTx (Except.error (some exAborted)) none
        (Except.ok { commit_timestamp := none, commit_stats := none }) (Except.ok ()) =
      (exTx, [], Except.error (some exAborted)) := by
  refine ⟨⟨rfl, Or.inl rfl⟩, ?_⟩
  exact finish_aborted_or_not_found_returns_without_rollback _ _ _ _ _ _ _ _ _
    rfl (Or.inl rfl)

/-- C2: for every business-logic success value, `finish` attempts exactly one
commit RPC (the wire trace is exactly one `CommitRequest`, so in particular
no rollback RPC): on commit success it returns the server commit timestamp
paired with the success value, and on commit failure it returns the commit
error (converted into the caller's error type) without rolling back. -/
theorem finish_success_attempts_exactly_one_commit {T E : Type}
    (sI : Status → Bool) (ats : E → Option Status) (ef : Status → E)
    (tx : ReadWriteTransaction) (s : T) (options : Option CommitOptions)
    (cr : Except Status CommitResponse) (rr : Except Status Unit) :
    tx.finish sI ats ef (Except.ok s) options cr rr =
      ({ tx with base_tx :=
           { tx.base_tx with session := (invalidate_if_needed sI tx.base_tx.session cr).1 } },
       [Request.commit
         { session := tx.get_session_name
           mutations := tx.wb
           transaction := some (CommitTransaction.TransactionId tx.tx_id)
           request_options := Transaction.create_request_options
             (options.getD CommitOptions.default).call_options.priority
           return_commit_stats := (options.getD CommitOptions.default).return_commit_stats }],
       match cr with
       | Except.ok c => Except.ok (c.commit_timestamp, s)
       | Except.error e => Except.error (ef e)) := by
  cases options <;> cases cr <;>
    simp [ReadWriteTransaction.finish, ReadWriteTransaction.commit,
      transaction_rw.commit, invalidate_if_needed,
      ReadWriteTransaction.get_session_name, Transaction.get_session_name]

/-- C3: for every business-logic failure whose error carries no server status
at all, and for every failure whose server status is neither `ABORTED` nor
`NOT_FOUND`, `finish` issues exactly one rollback RPC and returns the
original failure unchanged; the rollback RPC's own result (`rr`, universally
quantified) never affects the returned error. -/
theorem finish_other_failure_rolls_back_and_returns_original {T E : Type}
    (sI : Status → Bool) (ats : E → Option Status) (ef : Status → E)
    (tx : ReadWriteTransaction) (err : E) (options : Option CommitOptions)
    (cr : Except Status CommitResponse) (rr : Except Status Unit)
    (h : ats err = none ∨
      ∃ st, ats err = some st ∧ st.code ≠ Code.aborted ∧ st.code ≠ Code.notFound) :
    tx.finish sI ats ef (Except.error err : Except E T) options cr rr =
      ({ tx with base_tx :=
           { tx.base_tx with session := (invalidate_if_needed sI tx.base_tx.session rr).1 } },
       [Request.rollback { transaction_id := tx.tx_id, session := tx.get_session_name }],
       Except.error err) := by
  rcases h with h | ⟨st, hs, h1, h2⟩
  · simp [ReadWriteTransaction.finish, ReadWriteTransaction.rollback, h,
      ReadWriteTransaction.get_session_name, Transaction.get_session_name]
  · simp only [ReadWriteTransaction.finish, hs]
    rcases st with ⟨c, m⟩
    cases c <;>
      simp_all [ReadWriteTransaction.rollback,
        ReadWriteTransaction.get_session_name, Transaction.get_session_name]

/-- Witness for C3: an error reporting `INTERNAL` makes `finish` issue the
rollback RPC and return the original failure, even though the rollback RPC
itself fails. -/
theorem finish_other_failure_rolls_back_and_returns_original_witness :
    ((fun (e : Option Status) => e) (some exInternal) = none ∨
      ∃ st, (fun (e : Option Status) => e) (some exInternal) = some st ∧
        st.code ≠ Code.aborted ∧ st.code ≠ Code.notFound) ∧
    ReadWriteTransaction.finish (T := Nat) (fun _ => true) (fun (e : Option Status) => e)
        some exTx (Except.error (some exInternal)) none
        (Except.ok { commit_timestamp := none, commit_stats := none })
        (Except.error { code := Code.unknown, message := "rollback failed" }) =
      ({ exTx with base_tx :=
           { exTx.base_tx with session := { exSession with valid := false } } },
       [Request.rollback { transaction_id := [1], session := "s1" }],
       Except.error (some exInternal)) := by
  constructor
  · exact Or.inr ⟨exInternal, rfl, by decide, by decide⟩
  · have := finish_other_failure_rolls_back_and_returns_original (T := Nat)
      (fun _ => true) (fun (e : Option Status) => e) some exTx (some exInternal) none
      (Except.ok { commit_timestamp := none, commit_stats := none })
      (Except.error { code := Code.unknown, message := "rollback failed" })
      (Or.inr ⟨exInternal, rfl, by decide, by decide⟩)
    rw [this]
    rfl

/-- C6: the row-count extraction policy. An exact row count is returned as
is; a lower-bound row count is returned as is; absent stats or absent row
count yield 0. On a successful RPC, `update` returns exactly the extraction
of the response's stats, and `batch_update` applies the identical rule to
each result set, preserving order. -/
theorem row_count_extraction_policy (v : Int) :
    extract_row_count (some { row_count := some (RowCount.RowCountExact v) }) = v ∧
    extract_row_count (some { row_count := some (RowCount.RowCountLowerBound v) }) = v ∧
    extract_row_count (some { row_count := none }) = 0 ∧
    extract_row_count none = 0 ∧
    (∀ (sI : Status → Bool) (tx : ReadWriteTransaction) (stmt : Statement)
        (options : Option QueryOptions) (rs : ResultSet),
      (tx.update sI stmt options (Except.ok rs)).2.2 =
        Except.ok (extract_row_count rs.stats)) ∧
    (∀ (sI : Status → Bool) (tx : ReadWriteTransaction) (stmts : List Statement)
        (options : Option QueryOptions) (resp : ExecuteBatchDmlResponse),
      (tx.batch_update sI stmts options (Except.ok resp)).2.2 =
        Except.ok (resp.result_sets.map (fun x => extract_row_count x.stats))) := by
  refine ⟨rfl, rfl, rfl, rfl, ?_, ?_⟩
  · intro sI tx stmt options rs
    simp [ReadWriteTransaction.update, invalidate_if_needed]
  · intro sI tx stmts options resp
    simp [ReadWriteTransaction.batch_update, invalidate_if_needed]

/-- C7: a failed begin (`begin` or `begin_partitioned_dml` whose
begin-transaction RPC errors) returns a `BeginError` carrying both the
failure status and the still-leased session handle; the handle's identity
(its leased server-side session) is exactly the one passed in, and it is
never dropped. -/
theorem begin_failure_returns_status_and_same_session (sI : Status → Bool)
    (session : ManagedSession) (options : CallOptions) (e : Status) :
    (ReadWriteTransaction.begin sI session options (Except.error e)).2 =
      Except.error
        { status := e
          session := (invalidate_if_needed sI session
            (Except.error e : Except Status TransactionProto)).1 } ∧
    (ReadWriteTransaction.begin_partitioned_dml sI session options (Except.error e)).2 =
      Except.error
        { status := e
          session := (invalidate_if_needed sI session
            (Except.error e : Except Status TransactionProto)).1 } ∧
    (invalidate_if_needed sI session
        (Except.error e : Except Status TransactionProto)).1.session = session.session := by
  refine ⟨?_, ?_, ?_⟩ <;>
    simp [ReadWriteTransaction.begin, ReadWriteTransaction.begin_partitioned_dml,
      ReadWriteTransaction.begin_internal, invalidate_if_needed] <;>
    split <;> rfl

/-- A fresh transaction as produced by a successful begin: counter 0, empty
write buffer. -/
def exFreshTx : ReadWriteTransaction :=
  { base_tx :=
      { session := exSession
        sequence_number := 0
        transaction_selector := { selector := some (Selector.id [1]) } }
    tx_id := [1]
    wb := [] }

/-- A concrete DML statement. -/
def exStmt : Statement :=
  { sql := "UPDATE t SET x = 1", params := [], param_types := [] }

/-- C5: `buffer_write` appends mutations in call order, issues no RPC and
never fails (its type has no error outcome); for a fresh transaction, after
`k` buffer calls the commit request's mutations field is exactly the
concatenation of the `k` argument lists in call order, and no request at all
is issued before commit. -/
theorem buffered_mutations_committed_in_call_order (sI : Status → Bool)
    (tx : ReadWriteTransaction) (wss : List (List Mutation))
    (options : CommitOptions) (cr : Except Status CommitResponse)
    (h : tx.wb = []) :
    (runCalls sI tx (wss.map Call.bufferWrite)).2 = [] ∧
    (runCalls sI tx (wss.map Call.bufferWrite)).1.wb = tx.wb ++ wss.flatten ∧
    ((runCalls sI tx (wss.map Call.bufferWrite)).1.commit sI options cr).2.1 =
      [Request.commit
        { session := tx.get_session_name
          mutations := wss.flatten
          transaction := some (CommitTransaction.TransactionId tx.tx_id)
          request_options := Transaction.create_request_options options.call_options.priority
          return_commit_stats := options.return_commit_stats }] := by
  rw [runCalls_bufferWrites]
  refine ⟨rfl, rfl, ?_⟩
  simp [ReadWriteTransaction.commit, transaction_rw.commit, h,
    ReadWriteTransaction.get_session_name, Transaction.get_session_name]

/-- Witness for C5: two buffer calls on a fresh transaction put exactly
`[m1, m2, m3]` (their concatenation, in order) into the commit request. -/
theorem buffered_mutations_committed_in_call_order_witness :
    exFreshTx.wb = [] ∧
    ((runCalls (fun _ => true) exFreshTx
        ([[{ mid := 1 }, { mid := 2 }], [{ mid := 3 }]].map Call.bufferWrite)).2 = [] ∧
      (runCalls (fun _ => true) exFreshTx
        ([[{ mid := 1 }, { mid := 2 }], [{ mid := 3 }]].map Call.bufferWrite)).1.wb =
        exFreshTx.wb ++ [[{ mid := 1 }, { mid := 2 }], [{ mid := 3 }]].flatten ∧
      ((runCalls (fun _ => true) exFreshTx
          ([[{ mid := 1 }, { mid := 2 }], [{ mid := 3 }]].map Call.bufferWrite)).1.commit
          (fun _ => true) CommitOptions.default
          (Except.ok { commit_timestamp := none, commit_stats := none })).2.1 =
        [Request.commit
          { session := exFreshTx.get_session_name
            mutations := [[{ mid := 1 }, { mid := 2 }], [{ mid := 3 }]].flatten
            transaction := some (CommitTransaction.TransactionId exFreshTx.tx_id)
            request_options := Transaction.create_request_options
              CommitOptions.default.call_options.priority
            return_commit_stats := CommitOptions.default.return_commit_stats }]) :=
  ⟨rfl, buffered_mutations_committed_in_call_order (fun _ => true) exFreshTx
    [[{ mid := 1 }, { mid := 2 }], [{ mid := 3 }]] CommitOptions.default
    (Except.ok { commit_timestamp := none, commit_stats := none }) rfl⟩

/-- C8: every RPC issued by the transaction core (begin, execute_sql,
execute_batch_dml, commit, rollback) routes its raw transport result through
the session handle's `invalidate_if_needed` before the result is inspected
or returned: for an arbitrary invalidation policy `sI`, the session handle
held after each operation is exactly the handle `invalidate_if_needed`
produced from the raw result. -/
theorem every_rpc_result_routed_through_invalidation (sI : Status → Bool) :
    (∀ (session : ManagedSession) (mode : Mode) (options : CallOptions)
        (r : Except Status TransactionProto),
      (match (ReadWriteTransaction.begin_internal sI session mode options r).2 with
       | Except.ok tx => tx.base_tx.session
       | Except.error be => be.session) = (invalidate_if_needed sI session r).1) ∧
    (∀ (tx : ReadWriteTransaction) (stmt : Statement) (options : Option QueryOptions)
        (r : Except Status ResultSet),
      (tx.update sI stmt options r).1.base_tx.session =
        (invalidate_if_needed sI tx.base_tx.session r).1) ∧
    (∀ (tx : ReadWriteTransaction) (stmts : List Statement) (options : Option QueryOptions)
        (r : Except Status ExecuteBatchDmlResponse),
      (tx.batch_update sI stmts options r).1.base_tx.session =
        (invalidate_if_needed sI tx.base_tx.session r).1) ∧
    (∀ (tx : ReadWriteTransaction) (options : CommitOptions)
        (r : Except Status CommitResponse),
      (tx.commit sI options r).1.base_tx.session =
        (invalidate_if_needed sI tx.base_tx.session r).1) ∧
    (∀ (tx : ReadWriteTransaction) (setting : Option BackoffRetrySettings)
        (r : Except Status Unit),
      (tx.rollback sI setting r).1.base_tx.session =
        (invalidate_if_needed sI tx.base_tx.session r).1) := by
  refine ⟨?_, ?_, ?_, ?_, ?_⟩
  · intro session mode options r
    cases r <;> simp [ReadWriteTransaction.begin_internal, invalidate_if_needed]
  · intro tx stmt options r
    cases r <;> simp [ReadWriteTransaction.update, invalidate_if_needed]
  · intro tx stmts options r
    cases r <;> simp [ReadWriteTransaction.batch_update, invalidate_if_needed]
  · intro tx options r
    cases r <;> simp [ReadWriteTransaction.commit, transaction_rw.commit, invalidate_if_needed]
  · intro tx setting r
    cases r <;> simp [ReadWriteTransaction.rollback, invalidate_if_needed]

/-- C9: neither `commit` nor `rollback` nor `finish` modifies the write
buffer or the transaction id (commit sends a copy of the buffer and leaves
it intact), and there is no internal guard against double finalization: a
second `commit` on the same transaction instance issues the identical
commit request (identical mutations and identical transaction id) again. -/
theorem finalization_leaves_buffer_and_id_intact (sI : Status → Bool) :
    (∀ (tx : ReadWriteTransaction) (options : CommitOptions)
        (cr : Except Status CommitResponse),
      (tx.commit sI options cr).1.wb = tx.wb ∧
      (tx.commit sI options cr).1.tx_id = tx.tx_id) ∧
    (∀ (tx : ReadWriteTransaction) (setting : Option BackoffRetrySettings)
        (rr : Except Status Unit),
      (tx.rollback sI setting rr).1.wb = tx.wb ∧
      (tx.rollback sI setting rr).1.tx_id = tx.tx_id) ∧
    (∀ (T E : Type) (ats : E → Option Status) (ef : Status → E)
        (tx : ReadWriteTransaction) (res : Except E T) (options : Option CommitOptions)
        (cr : Except Status CommitResponse) (rr : Except Status Unit),
      (tx.finish sI ats ef res options cr rr).1.wb = tx.wb ∧
      (tx.finish sI ats ef res options cr rr).1.tx_id = tx.tx_id) ∧
    (∀ (tx : ReadWriteTransaction) (options : CommitOptions)
        (cr1 cr2 : Except Status CommitResponse),
      ((tx.commit sI options cr1).1.commit sI options cr2).2.1 =
        (tx.commit sI options cr1).2.1) := by
  refine ⟨?_, ?_, ?_, ?_⟩
  · intro tx options cr
    exact ⟨rfl, rfl⟩
  · intro tx setting rr
    exact ⟨rfl, rfl⟩
  · intro T E ats ef tx res options cr rr
    cases res with
    | ok s =>
        cases cr <;> simp [ReadWriteTransaction.finish, ReadWriteTransaction.commit,
          transaction_rw.commit, invalidate_if_needed]
    | error err =>
        cases h : ats err with
        | none =>
            simp [ReadWriteTransaction.finish, ReadWriteTransaction.rollback, h]
        | some st =>
            rcases st with ⟨c, m⟩
            cases c <;>
              simp [ReadWriteTransaction.finish, ReadWriteTransaction.rollback, h]
  · intro tx options cr1 cr2
    cases cr1 <;>
      simp [ReadWriteTransaction.commit, transaction_rw.commit, invalidate_if_needed] <;>
      split <;> rfl


/-- A mutating call whose RPC fails at the transport. -/
def failingUpdate : Call := Call.update exStmt none (Except.error exInternal)

/-- Counting `n` replicated failing updates: all of them are mutating. -/
theorem countP_replicate_failingUpdate (n : Nat) :
    (List.replicate n failingUpdate).countP Call.isMutating = n := by
  induction n with
  | zero => rfl
  | succ n ih =>
      rw [List.replicate_succ, List.countP_cons, ih]
      simp [failingUpdate, Call.isMutating]

/-- C4 (amended): the source's sequence counter is a wrapping `i64`
(`AtomicI64::fetch_add`), so the claim holds up to the wrap point: for every
sequence of calls on one transaction whose counter starts at 0 (as `begin`
produces it) containing at most `2^63` mutating calls, the sequence numbers
placed in the mutating RPC requests are the strictly increasing integers
`0, 1, ..., N-1` in call order, where `N` counts the mutating calls
(`update` / `batch_update`) only; moreover a `batch_update` call issues
exactly one request whose single `seqno` field is shared by all statements
of the batch. Beyond `2^63` mutating calls the counter wraps to `i64::MIN`
(see the counterexample). -/
theorem mutating_calls_emit_seqnos_zero_to_n (sI : Status → Bool)
    (tx : ReadWriteTransaction) (calls : List Call)
    (tx' : ReadWriteTransaction) (stmts : List Statement)
    (options : Option QueryOptions) (r : Except Status ExecuteBatchDmlResponse)
    (h : tx.base_tx.sequence_number = 0)
    (hN : calls.countP Call.isMutating ≤ 2 ^ 63) :
    mutatingSeqnos (runCalls sI tx calls).2 =
      (List.range (calls.countP Call.isMutating)).map (fun (i : Nat) => (i : Int)) ∧
    (tx'.batch_update sI stmts options r).2.1 =
      [Request.execute_batch_dml
        { session := tx'.get_session_name
          transaction := some tx'.base_tx.transaction_selector
          seqno := tx'.base_tx.sequence_number
          request_options := Transaction.create_request_options
            (options.getD QueryOptions.default).call_options.priority
          statements := stmts.map (fun x =>
            { sql := x.sql
              params := some { fields := x.params }
              param_types := x.param_types }) }] := by
  constructor
  · rw [runCalls_mutatingSeqnos sI calls tx (by omega) (by omega)]
    refine List.map_congr_left ?_
    intro i hi
    rw [List.mem_range] at hi
    rw [h, zero_add]
    exact wrap64_eq_self _ (by omega) (by omega)
  · cases options <;> cases r <;>
      simp [ReadWriteTransaction.batch_update, invalidate_if_needed]

/-- Counterexample to C4 as literally stated ("for every sequence of N
mutating calls"): after `2^63 + 1` mutating calls on one transaction the
`i64` counter has wrapped, so the stamped seqnos are not `0..N-1` — the
claimed list contains `2^63`, but every stamped seqno is `< 2^63`. -/
theorem mutating_calls_emit_seqnos_zero_to_n_counterexample :
    ¬ (mutatingSeqnos (runCalls (fun _ => true) exFreshTx
          (List.replicate (2 ^ 63 + 1) failingUpdate)).2 =
        (List.range
            ((List.replicate (2 ^ 63 + 1) failingUpdate).countP Call.isMutating)).map
          (fun (i : Nat) => (i : Int))) := by
  intro h
  rw [countP_replicate_failingUpdate,
    runCalls_mutatingSeqnos (fun _ => true) _ exFreshTx
      (by norm_num [exFreshTx]) (by norm_num [exFreshTx]),
    countP_replicate_failingUpdate] at h
  have hmem : ((2 : Int) ^ 63) ∈
      (List.range (2 ^ 63 + 1)).map (fun (i : Nat) => (i : Int)) :=
    List.mem_map.mpr ⟨2 ^ 63, List.mem_range.mpr (by omega), by norm_num⟩
  rw [← h] at hmem
  obtain ⟨i, _, hi⟩ := List.mem_map.mp hmem
  have hub := wrap64_upper (exFreshTx.base_tx.sequence_number + (i : Int))
  rw [hi] at hub
  exact absurd hub (lt_irrefl _)

/-- Witness for C4 (amended): a trace of an `update` whose RPC fails, a
`buffer_write`, and a `batch_update`, starting from a fresh transaction,
stamps seqnos `[0, 1]` on the two mutating requests. -/
theorem mutating_calls_emit_seqnos_zero_to_n_witness :
    (exFreshTx.base_tx.sequence_number = 0 ∧
      [Call.update exStmt none (Except.error exInternal),
        Call.bufferWrite [{ mid := 1 }],
        Call.batchUpdate [exStmt] none
          (Except.ok { result_sets := [] })].countP Call.isMutating ≤ 2 ^ 63) ∧
    (mutatingSeqnos (runCalls (fun _ => true) exFreshTx
        [Call.update exStmt none (Except.error exInternal),
         Call.bufferWrite [{ mid := 1 }],
         Call.batchUpdate [exStmt] none (Except.ok { result_sets := [] })]).2 =
      (List.range ([Call.update exStmt none (Except.error exInternal),
         Call.bufferWrite [{ mid := 1 }],
         Call.batchUpdate [exStmt] none
           (Except.ok { result_sets := [] })].countP Call.isMutating)).map
        (fun (i : Nat) => (i : Int)) ∧
      (exFreshTx.batch_update (fun _ => true) [exStmt] none
          (Except.ok { result_sets := [] })).2.1 =
        [Request.execute_batch_dml
          { session := exFreshTx.get_session_name
            transaction := some exFreshTx.base_tx.transaction_selector
            seqno := exFreshTx.base_tx.sequence_number
            request_options := Transaction.create_request_options
              ((none : Option QueryOptions).getD QueryOptions.default).call_options.priority
            statements := [exStmt].map (fun x =>
              { sql := x.sql
                params := some { fields := x.params }
                param_types := x.param_types }) }]) :=
  ⟨⟨rfl, by decide⟩, mutating_calls_emit_seqnos_zero_to_n (fun _ => true) exFreshTx
    [Call.update exStmt none (Except.error exInternal),
     Call.bufferWrite [{ mid := 1 }],
     Call.batchUpdate [exStmt] none (Except.ok { result_sets := [] })]
    exFreshTx [exStmt] none (Except.ok { result_sets := [] }) rfl (by decide)⟩

/-- C10 (amended): the sequence counter is consumed at request-construction
time, before the RPC is sent: a mutating call whose RPC fails still stamps
the counter's current value on the wire request and leaves the counter
advanced by a wrapping 64-bit increment (`AtomicI64::fetch_add` wraps on
overflow). Consequently, within one transaction instance whose counter is in
the `i64` range, no sequence number is reused across any call trace of at
most `2^64` mutating calls — the first repetition can only occur after the
counter completes a full 64-bit cycle (see the counterexample). -/
theorem seqno_consumed_at_request_construction (sI : Status → Bool)
    (tx : ReadWriteTransaction) (stmt : Statement) (stmts : List Statement)
    (options : Option QueryOptions) (e : Status)
    (tx2 : ReadWriteTransaction) (calls : List Call)
    (h1 : -2 ^ 63 ≤ tx2.base_tx.sequence_number)
    (h2 : tx2.base_tx.sequence_number < 2 ^ 63)
    (hN : calls.countP Call.isMutating ≤ 2 ^ 64) :
    ((tx.update sI stmt options (Except.error e)).1.base_tx.sequence_number =
        wrap64 (tx.base_tx.sequence_number + 1) ∧
      mutatingSeqnos (tx.update sI stmt options (Except.error e)).2.1 =
        [tx.base_tx.sequence_number]) ∧
    ((tx.batch_update sI stmts options (Except.error e)).1.base_tx.sequence_number =
        wrap64 (tx.base_tx.sequence_number + 1) ∧
      mutatingSeqnos (tx.batch_update sI stmts options (Except.error e)).2.1 =
        [tx.base_tx.sequence_number]) ∧
    (mutatingSeqnos (runCalls sI tx2 calls).2).Nodup := by
  refine ⟨⟨?_, ?_⟩, ⟨?_, ?_⟩, ?_⟩
  · simp [ReadWriteTransaction.update, invalidate_if_needed]
  · simp [ReadWriteTransaction.update, invalidate_if_needed, mutatingSeqnos]
  · simp [ReadWriteTransaction.batch_update, invalidate_if_needed]
  · simp [ReadWriteTransaction.batch_update, invalidate_if_needed, mutatingSeqnos]
  · rw [runCalls_mutatingSeqnos sI calls tx2 h1 h2]
    refine List.Nodup.map_on ?_ (List.nodup_range _)
    intro i hi j hj hij
    rw [List.mem_range] at hi hj
    simp only [wrap64] at hij
    omega

/-- Counterexample to C10's "no sequence number is ever reused within one
transaction instance": after `2^64 + 1` mutating calls the wrapping `i64`
counter has completed a full cycle, so the stamped seqnos contain a
duplicate (the first and the `2^64`-th stamp are both 0). -/
theorem seqno_consumed_at_request_construction_counterexample :
    ¬ (mutatingSeqnos (runCalls (fun _ => true) exFreshTx
          (List.replicate (2 ^ 64 + 1) failingUpdate)).2).Nodup := by
  intro h
  rw [runCalls_mutatingSeqnos (fun _ => true) _ exFreshTx
      (by norm_num [exFreshTx]) (by norm_num [exFreshTx]),
    countP_replicate_failingUpdate] at h
  have h0 : (0 : Nat) ∈ List.range (2 ^ 64 + 1) := List.mem_range.mpr (by omega)
  have h1 : (2 ^ 64 : Nat) ∈ List.range (2 ^ 64 + 1) := List.mem_range.mpr (by omega)
  have heq : wrap64 (exFreshTx.base_tx.sequence_number + ((0 : Nat) : Int)) =
      wrap64 (exFreshTx.base_tx.sequence_number + ((2 ^ 64 : Nat) : Int)) := by
    simp only [wrap64]
    push_cast
    omega
  have := List.inj_on_of_nodup_map h h0 h1 heq
  omega

/-- Witness for C10 (amended): on a transaction with counter 2, a failing
`update` and a failing `batch_update` each stamp the current counter and
wrap-increment it; a two-failing-update trace from a fresh transaction
stamps duplicate-free seqnos. -/
theorem seqno_consumed_at_request_construction_witness :
    ((-2 ^ 63 ≤ exFreshTx.base_tx.sequence_number ∧
        exFreshTx.base_tx.sequence_number < 2 ^ 63) ∧
      [failingUpdate, failingUpdate].countP Call.isMutating ≤ 2 ^ 64) ∧
    (((exTx.update (fun _ => true) exStmt none
          (Except.error exInternal)).1.base_tx.sequence_number =
        wrap64 (exTx.base_tx.sequence_number + 1) ∧
      mutatingSeqnos (exTx.update (fun _ => true) exStmt none
          (Except.error exInternal)).2.1 =
        [exTx.base_tx.sequence_number]) ∧
    ((exTx.batch_update (fun _ => true) [exStmt] none
          (Except.error exInternal)).1.base_tx.sequence_number =
        wrap64 (exTx.base_tx.sequence_number + 1) ∧
      mutatingSeqnos (exTx.batch_update (fun _ => true) [exStmt] none
          (Except.error exInternal)).2.1 =
        [exTx.base_tx.sequence_number]) ∧
    (mutatingSeqnos (runCalls (fun _ => true) exFreshTx
        [failingUpdate, failingUpdate]).2).Nodup) :=
  ⟨⟨⟨by decide, by decide⟩, by decide⟩,
    seqno_consumed_at_request_construction (fun _ => true) exTx exStmt [exStmt]
      none exInternal exFreshTx [failingUpdate, failingUpdate]
      (by decide) (by decide) (by decide)⟩
